import Mathlib

/-!
Verification development for the RohdeSchwarz FSEB20 spectrum-analyzer
repository: a shallow embedding of

  * `RohdeSchwarz_FSEB20_spectrum_ana.py` (the SpectrumAnaFSEB20 command
    facade), and
  * `examples/phaselock_beatnote_rsFSEB20_mon.py` (the
    PhaselockMonitorFSEB20 polling loop),

together with theorems settling the specification claims about them.

Modelling conventions:

  * Python floats are modelled as exact rationals `ℚ`; `float(s)` string
    conversion is modelled by `pyFloat` below (decimal and exponent forms;
    the `inf`/`nan` words and digit underscores accepted by CPython are
    modelled as failures — no instrument reply in this code ever takes
    those forms).
  * An uncaught Python exception is modelled as `Except.error`; the code
    under test installs no handler anywhere, so an error value aborts the
    surrounding computation exactly as an exception aborts the loop.
  * Instrument traffic is modelled as a trace of `Event`s: SCPI writes,
    SCPI queries, `time.sleep` calls and publisher calls.  Replies that the
    loop reads this cycle are supplied by an `Env` record, one field per
    textual query reply (the grabber message fields hold the raw published
    message).  Both `time.time()` calls of a publishing cycle (lines 246
    and 250 of the monitor) are modelled by the single cycle timestamp
    `Env.now`; the second call can only be later, which can only widen the
    publish spacing being proved.
  * `np.logspace` and the span-ramp arithmetic of `narrow_on_beatnote` are
    modelled over `ℝ` (`np_logspace`, `narrow_spans` below), since they are
    genuinely real-valued; all other code is executable.
-/

/-! ### Python string primitives -/

/-- Leading-whitespace removal on a character list (helper for Python
`str.strip`, which `float()` and `pyvisa`'s `query(...).strip()` use). -/
def dropWs : List Char → List Char
  | [] => []
  | c :: cs => if c.isWhitespace then dropWs cs else c :: cs

/-- Python `str.strip()`: remove leading and trailing whitespace. -/
def pyStrip (s : String) : String :=
  String.mk (dropWs (dropWs s.data.reverse).reverse)

/-- Numeric value of a digit string (most significant digit first). -/
def digitsVal (cs : List Char) : ℕ :=
  cs.foldl (fun a c => 10 * a + (c.toNat - 48)) 0

/-- Longest digit prefix of a character list, and the remainder. -/
def takeDigits : List Char → List Char × List Char
  | [] => ([], [])
  | c :: cs =>
    if c.isDigit then
      let p := takeDigits cs
      (c :: p.1, p.2)
    else ([], c :: cs)

/-- Unsigned decimal mantissa of a Python float literal: `digits`,
`digits.digits`, `digits.` or `.digits` (at least one digit in total).
Returns its value and the unconsumed remainder. -/
def parseMantissa (cs : List Char) : Option (ℚ × List Char) :=
  let p := takeDigits cs
  match p.2 with
  | '.' :: r2 =>
    let q := takeDigits r2
    if p.1.isEmpty && q.1.isEmpty then none
    else some ((digitsVal p.1 : ℚ) + (digitsVal q.1 : ℚ) / (10 : ℚ) ^ q.1.length, q.2)
  | r1 => if p.1.isEmpty then none else some ((digitsVal p.1 : ℚ), r1)

/-- Optionally signed decimal exponent digits after the `e`/`E` of a Python
float literal. -/
def parseExpPart (cs : List Char) : Option (ℤ × List Char) :=
  match cs with
  | '+' :: r =>
    let p := takeDigits r
    if p.1.isEmpty then none else some ((digitsVal p.1 : ℤ), p.2)
  | '-' :: r =>
    let p := takeDigits r
    if p.1.isEmpty then none else some (-(digitsVal p.1 : ℤ), p.2)
  | r =>
    let p := takeDigits r
    if p.1.isEmpty then none else some ((digitsVal p.1 : ℤ), p.2)

/-- Body of Python `float(string)` after whitespace stripping: optional
sign, mantissa, optional exponent.  `none` models the `ValueError` raised
on a malformed literal. -/
def pyFloatChars (cs : List Char) : Option ℚ :=
  let sc : ℚ × List Char :=
    match cs with
    | '+' :: r => (1, r)
    | '-' :: r => (-1, r)
    | r => (1, r)
  match parseMantissa sc.2 with
  | none => none
  | some mr =>
    match mr.2 with
    | [] => some (sc.1 * mr.1)
    | 'e' :: r =>
      (match parseExpPart r with
       | some er => if er.2.isEmpty then some (sc.1 * mr.1 * (10 : ℚ) ^ er.1) else none
       | none => none)
    | 'E' :: r =>
      (match parseExpPart r with
       | some er => if er.2.isEmpty then some (sc.1 * mr.1 * (10 : ℚ) ^ er.1) else none
       | none => none)
    | _ => none

/-- Python `float(string)`: strip whitespace, then parse; `none` models the
`ValueError` on malformed input. -/
def pyFloat (s : String) : Option ℚ :=
  pyFloatChars (dropWs (dropWs s.data.reverse).reverse)

/-- Helper for Python `str.split()` with no separator: accumulate the
current token (reversed) while scanning. -/
def pySplitAux : List Char → List Char → List (List Char)
  | [], acc => if acc.isEmpty then [] else [acc.reverse]
  | c :: cs, acc =>
    if c.isWhitespace then
      if acc.isEmpty then pySplitAux cs [] else acc.reverse :: pySplitAux cs []
    else pySplitAux cs (c :: acc)

/-- Python `str.split()` (no argument): split on whitespace runs, dropping
empty tokens. -/
def pySplit (s : String) : List String :=
  (pySplitAux s.data []).map String.mk

/-! ### Error and event model -/

/-- Uncaught Python exceptions relevant to this code. -/
inductive PyErr where
  | valueErr
  | indexErr
  | attributeErr
deriving DecidableEq, Repr

/-- One observable action of the monitor: an SCPI write, an SCPI query, a
`time.sleep`, or a publisher call (`publish_data((rbw, pf, fw))` at wall
time `t`; `pf` and `fw` are the raw marker reply strings, which the monitor
never converts to numbers before publishing). -/
inductive Event where
  | write (cmd : String)
  | queryEv (cmd : String)
  | sleepEv (seconds : ℚ)
  | publishEv (rbw : ℚ) (pf fw : String) (t : ℚ)
deriving DecidableEq, Repr

/-! ### Instrument command facade (`SpectrumAnaFSEB20`)

`query` is pyvisa's query followed by `.strip()` (line 80 of the driver);
a transport is modelled as the function from command string to raw reply
string.  Every getter of the driver returns this stripped reply string
unchanged — the driver performs no numeric parsing. -/

/-- `SpectrumAnaFSEB20.query`: send `cmd`, return the stripped reply. -/
def saQuery (transport : String → String) (cmd : String) : String :=
  pyStrip (transport cmd)

/-- `get_rbw` (line 114): resolution bandwidth, raw reply string. -/
def get_rbw (transport : String → String) : String :=
  saQuery transport "SENSe:BANDwidth:RESolution?"

/-- `get_freq_span` (line 141): frequency span, raw reply string. -/
def get_freq_span (transport : String → String) : String :=
  saQuery transport "SENSe:FREQuency:SPAN?"

/-- `get_center_freq` (line 153): center frequency, raw reply string. -/
def get_center_freq (transport : String → String) : String :=
  saQuery transport ":SENSe:FREQuency:CENTer?"

/-- `get_sweep_time` (line 162): sweep time, raw reply string. -/
def get_sweep_time (transport : String → String) : String :=
  saQuery transport ":SENSe:SWEep:TIME?"

/-- `get_marker_freq` (line 235), marker 1, screen 1: raw reply string. -/
def get_marker_freq (transport : String → String) : String :=
  saQuery transport ":CALCulate1:MARKer1:X?"

/-- `get_marker_ndbdown_fspacing` (line 268), marker 1, screen 1: raw
reply string. -/
def get_marker_ndbdown_fspacing (transport : String → String) : String :=
  saQuery transport ":CALCulate1:MARKer1:FUNCtion:NDBDown:RESult?"

/-! ### Monitor measurement helpers (`PhaselockMonitorFSEB20`) -/

/-- The instrument traffic of `get_peak_freq` (monitor lines 76-82):
marker on, marker to trace 1, marker to peak, marker frequency query. -/
def peak_freq_events : List Event :=
  [Event.write ":CALCulate1:MARKer1:STATe ON",
   Event.write ":CALCulate1:MARKer1:TRACe 1",
   Event.write ":CALCulate1:MARKer1:MAXimum:PEAK",
   Event.queryEv ":CALCulate1:MARKer1:X?"]

/-- `PhaselockMonitorFSEB20.get_peak_freq`, given the instrument's reply
to the marker-frequency query: the events issued and the (string) value
returned. -/
def get_peak_freq (xReply : String) : List Event × String :=
  (peak_freq_events, pyStrip xReply)

/-- The instrument traffic of `get_3db_width` (monitor lines 84-92). -/
def width_3db_events : List Event :=
  [Event.write ":CALCulate1:MARKer1:STATe ON",
   Event.write ":CALCulate1:MARKer1:TRACe 1",
   Event.write ":CALCulate1:MARKer1:MAXimum:PEAK",
   Event.write ":CALCulate1:MARKer1:FUNCtion:NDBDown 3dB",
   Event.write ":CALCulate1:MARKer1:FUNCtion:NDBDown:STATe ON",
   Event.queryEv ":CALCulate1:MARKer1:FUNCtion:NDBDown:RESult?"]

/-- `PhaselockMonitorFSEB20.get_3db_width`, given the reply to the
N-dB-down result query. -/
def get_3db_width (resultReply : String) : List Event × String :=
  (width_3db_events, pyStrip resultReply)

/-- `wait_for_sweep` (monitor lines 105-110): query the sweep time, then
sleep `t * 1.01`.  `float(...)` on a malformed reply raises. -/
def wait_for_sweep (sweepReply : String) : Except PyErr (List Event) :=
  match pyFloat (pyStrip sweepReply) with
  | none => Except.error PyErr.valueErr
  | some t => Except.ok [Event.queryEv ":SENSe:SWEep:TIME?",
                         Event.sleepEv (t * (101 / 100))]

/-- `do_sweep_cont` (monitor lines 112-119): initiate a sweep, then
`wait_for_sweep`. -/
def do_sweep_cont (sweepReply : String) : Except PyErr (List Event) :=
  (wait_for_sweep sweepReply).map
    (fun l => Event.write ":INITiate1:IMMediate" :: l)

/-! ### Monitor constants (`PhaselockMonitorFSEB20.__init__`, lines 40-52) -/

/-- `self.pub_interval = 0.4` (s). -/
def pub_interval : ℚ := 2 / 5

/-- `self.sleep_time = 0.1` (s). -/
def sleep_time : ℚ := 1 / 10

/-- `self.zoomed_freq_span = 250.0` (Hz). -/
def zoomed_freq_span : ℚ := 250

/-- `self.zoomed_rbw = 20.0` (Hz). -/
def zoomed_rbw : ℚ := 20

/-- `self.bn_compare_tol = 0.05` (MHz). -/
def bn_compare_tol : ℚ := 1 / 20

/-- The 1 mHz comparison tolerance hard-coded in `check_zoomed_in`
(monitor lines 190 and 193). -/
def zoom_tol : ℚ := 1 / 1000

/-! ### The polling loop state and environment -/

/-- All mutable monitor state that the loop body can change:
`self.pub_last_time` only — line 203's `last_bn_counter_freq` is a local
that `start_loop` assigns exactly once, before the `while`, so it is a
fixed parameter of every cycle (see `loopStep`, `loopRun`). -/
structure LoopState where
  pub_last_time : ℚ
deriving DecidableEq, Repr

/-- `__init__` line 43: `self.pub_last_time = 0.0`. -/
def initState : LoopState := ⟨0⟩

/-- The external inputs consumed by one poll cycle: the grabber messages
and the raw textual reply to each query the cycle may issue, plus the
`time.time()` wall-clock value.  The replies consumed inside
`narrow_on_beatnote` are not listed: that call's span-ramp arithmetic is
modelled separately over `ℝ` (`narrow_spans`), and it performs no
publisher call, which is all the loop-level theorems rely on. -/
structure Env where
  /-- grabber message read at line 212. -/
  bn_msg : String
  /-- reply to the center-frequency query of line 219. -/
  cf_reply : String
  /-- reply to the span query inside `check_zoomed_in` (line 189). -/
  span_reply : String
  /-- reply to the rbw query inside `check_zoomed_in` (line 192). -/
  rbw_reply : String
  /-- reply to the sweep-time query inside `do_sweep_cont` (line 233). -/
  sweep_reply : String
  /-- reply to the marker-frequency query of `get_peak_freq` (line 236). -/
  peak_reply : String
  /-- reply to the N-dB-down result query of `get_3db_width` (line 237). -/
  width_reply : String
  /-- reply to the rbw query of line 240. -/
  rbw2_reply : String
  /-- grabber message read inside `coarse_center_on_beatnote` (line 64). -/
  bn_msg2 : String
  /-- reply to the sweep-time query inside `coarse_center_on_beatnote`
  (line 71). -/
  sweep2_reply : String
  /-- `time.time()` during this cycle. -/
  now : ℚ

/-- `get_beatnote_counter_freq` (monitor lines 55-60):
`msg.decode().split()[2]` — `none` models the `IndexError` when the
message has fewer than three tokens.  The value returned is a string. -/
def get_beatnote_counter_freq (msg : String) : Option String :=
  (pySplit msg).get? 2

/-- `float(self.get_beatnote_counter_freq())` as the loop evaluates it at
lines 203 and 212. -/
def pyBn (msg : String) : Except PyErr ℚ :=
  match get_beatnote_counter_freq msg with
  | none => Except.error PyErr.indexErr
  | some tok =>
    match pyFloat tok with
    | none => Except.error PyErr.valueErr
    | some q => Except.ok q

/-- `coarse_center_on_beatnote` (monitor lines 62-73): grab the counter
value as a *string*, command center = that string + "MHz", span 5 MHz,
rbw 10 kHz, then sleep exactly `float(get_sweep_time())` — note the bare
`time.sleep(float(st))` at line 73, with no margin factor. -/
def coarse_center_on_beatnote (e : Env) : Except PyErr (List Event) :=
  match get_beatnote_counter_freq e.bn_msg2 with
  | none => Except.error PyErr.indexErr
  | some tok =>
    match pyFloat (pyStrip e.sweep2_reply) with
    | none => Except.error PyErr.valueErr
    | some t =>
      Except.ok [Event.write (":SENSe:FREQuency:CENTer " ++ tok ++ "MHz"),
                 Event.write "SENSe:FREQuency:SPAN 5MHz",
                 Event.write "SENSe:BANDwidth:RESolution 10kHz",
                 Event.queryEv ":SENSe:SWEep:TIME?",
                 Event.sleepEv t]

/-- How one poll cycle ended (which `continue` fired, if any). -/
inductive CycleOutcome where
  /-- line 216: reference moved beyond tolerance, cycle skipped. -/
  | ramping
  /-- line 223: center far from reference, coarse re-acquisition, skip. -/
  | recenter
  /-- line 229: zoom settings off target, `narrow_on_beatnote`, skip. -/
  | zoom
  /-- lines 231-250: sweep, measure, re-center, maybe publish. -/
  | measured
deriving DecidableEq, Repr

/-- One iteration of the `while True` body of `start_loop` (monitor lines
205-250).  `last_bn` is the local `last_bn_counter_freq` fixed at line 203
— the loop never reassigns it.  Returns the outcome tag, the state after
the cycle and the event trace; `Except.error` models an uncaught exception
killing the loop. -/
def loopStep (last_bn : ℚ) (st : LoopState) (e : Env) :
    Except PyErr (CycleOutcome × LoopState × List Event) :=
  match pyBn e.bn_msg with
  | Except.error er => Except.error er
  | Except.ok bn =>
    if |last_bn - bn| > bn_compare_tol then
      Except.ok (CycleOutcome.ramping, st, [Event.sleepEv sleep_time])
    else
      match pyFloat (pyStrip e.cf_reply) with
      | none => Except.error PyErr.valueErr
      | some cfHz =>
        if |cfHz / 1000 / 1000 - bn| > bn_compare_tol then
          match coarse_center_on_beatnote e with
          | Except.error er => Except.error er
          | Except.ok cevs =>
            Except.ok (CycleOutcome.recenter, st,
              Event.sleepEv sleep_time ::
                Event.queryEv ":SENSe:FREQuency:CENTer?" :: cevs)
        else
          match pyFloat (pyStrip e.span_reply) with
          | none => Except.error PyErr.valueErr
          | some sp =>
            if |sp - zoomed_freq_span| > zoom_tol then
              Except.ok (CycleOutcome.zoom, st,
                [Event.sleepEv sleep_time,
                 Event.queryEv ":SENSe:FREQuency:CENTer?",
                 Event.queryEv "SENSe:FREQuency:SPAN?"])
            else
              match pyFloat (pyStrip e.rbw_reply) with
              | none => Except.error PyErr.valueErr
              | some rv =>
                if |rv - zoomed_rbw| > zoom_tol then
                  Except.ok (CycleOutcome.zoom, st,
                    [Event.sleepEv sleep_time,
                     Event.queryEv ":SENSe:FREQuency:CENTer?",
                     Event.queryEv "SENSe:FREQuency:SPAN?",
                     Event.queryEv "SENSe:BANDwidth:RESolution?"])
                else
                  match do_sweep_cont e.sweep_reply with
                  | Except.error er => Except.error er
                  | Except.ok swevs =>
                    match pyFloat (pyStrip e.rbw2_reply) with
                    | none => Except.error PyErr.valueErr
                    | some rbwVal =>
                      let pf := (get_peak_freq e.peak_reply).2
                      let fw := (get_3db_width e.width_reply).2
                      let evs :=
                        [Event.sleepEv sleep_time,
                         Event.queryEv ":SENSe:FREQuency:CENTer?",
                         Event.queryEv "SENSe:FREQuency:SPAN?",
                         Event.queryEv "SENSe:BANDwidth:RESolution?"] ++
                        swevs ++ (get_peak_freq e.peak_reply).1 ++
                        (get_3db_width e.width_reply).1 ++
                        [Event.queryEv "SENSe:BANDwidth:RESolution?",
                         Event.write (":SENSe:FREQuency:CENTer " ++ pf)]
                      if st.pub_last_time + pub_interval < e.now then
                        Except.ok (CycleOutcome.measured, ⟨e.now⟩,
                          evs ++ [Event.publishEv rbwVal pf fw e.now])
                      else
                        Except.ok (CycleOutcome.measured, st, evs)

/-- Result of running the loop over a list of cycle environments. -/
structure RunResult where
  outcomes : List CycleOutcome
  events : List Event
  final : LoopState
  err : Option PyErr
deriving DecidableEq, Repr

/-- Run `loopStep` over successive cycles, stopping (like the crashing
Python loop) at the first uncaught exception.  `last_bn` stays fixed for
the whole run, exactly as `last_bn_counter_freq` does in `start_loop`. -/
def loopRun (last_bn : ℚ) (st : LoopState) : List Env → RunResult
  | [] => ⟨[], [], st, none⟩
  | e :: es =>
    match loopStep last_bn st e with
    | Except.error er => ⟨[], [], st, some er⟩
    | Except.ok (oc, st2, evs) =>
      let r := loopRun last_bn st2 es
      ⟨oc :: r.outcomes, evs ++ r.events, r.final, r.err⟩

/-- The wall time of a publisher call, if the event is one. -/
def pubTime? : Event → Option ℚ
  | Event.publishEv _ _ _ t => some t
  | _ => none

/-- The wall times of all publisher calls in a trace. -/
def pubTimes (evs : List Event) : List ℚ :=
  evs.filterMap pubTime?

/-! ### Teardown (`__del__`, monitor lines 256-259)

`__del__` invokes `self.sa.close_connenction()` — the instrument class
defines `close_connection` (driver line 56), so Python attribute lookup
fails before any of the three close calls runs. -/

/-- Method names defined on `SpectrumAnaFSEB20` (driver lines 27-301). -/
def saMethodNames : List String :=
  ["__init__", "open_connection", "close_connection", "write", "read",
   "query", "test_connection", "get_name", "get_error", "set_rbw",
   "get_rbw", "set_rbw_ratio_onoff", "set_rbw_freq_span_ratio",
   "set_freq_span", "get_freq_span", "set_center_freq", "get_center_freq",
   "get_sweep_time", "set_ref_level", "get_ref_level", "set_rf_atten",
   "get_rf_atten", "set_y_range", "get_y_range", "set_marker_onoff",
   "set_marker_to_trace", "set_marker_freq", "get_marker_freq",
   "get_marker_value", "set_marker_at_max", "set_marker_ndbdown_val",
   "set_marker_ndbdown_onoff", "get_marker_ndbdown_fspacing",
   "get_marker_ndbdown_freqs", "initiate_meas", "set_freerun_onoff",
   "get_freerun_onoff"]

/-- Python attribute lookup of a method on the instrument object:
`AttributeError` when the name is not defined. -/
def attrCall (names : List String) (name : String) : Except PyErr Unit :=
  if name ∈ names then Except.ok () else Except.error PyErr.attributeErr

/-- `PhaselockMonitorFSEB20.__del__` (lines 256-259): the three close
calls in order.  The publisher and grabber `close()` calls are external
collaborators modelled as succeeding; the result lists the resources that
actually got released. -/
def del_body : Except PyErr (List String) := do
  _ ← attrCall saMethodNames "close_connenction"
  pure ["sa.instr", "publisher", "bnGrabber"]

/-! ### The span ramp of `narrow_on_beatnote` (monitor lines 141-157)

`spans = np.logspace(np.log10(fs), np.log10(freq_span),
int(np.log10(fs) - np.log10(freq_span)))`, then one `set_freq_span` per
element, then a final forced `set_freq_span(str(freq_span))`. -/

/-- `np.logspace(a, b, num)`: `num` samples of `10 ^ x` with `x` linearly
spaced from `a` to `b` inclusive.  For `num = 1` NumPy returns `[10 ^ a]`,
which the formula also yields because Lean division by zero is zero. -/
noncomputable def np_logspace (a b : ℝ) (num : ℕ) : List ℝ :=
  (List.range num).map
    (fun i : ℕ => (10 : ℝ) ^ (a + (i : ℝ) * ((b - a) / ((num : ℝ) - 1))))

/-- `int(np.log10(fs) - np.log10(freq_span))`: for the positive values at
hand, Python `int()` truncation on a float equals the floor. -/
noncomputable def numSteps (s0 st : ℝ) : ℕ :=
  ⌊Real.logb 10 s0 - Real.logb 10 st⌋₊

/-- The full sequence of span values commanded by `narrow_on_beatnote`
when it starts from span `s0` and targets span `st`: the `np.logspace`
ramp (lines 143-148), followed by the forced final
`set_freq_span(str(freq_span))` at line 157. -/
noncomputable def narrow_spans (s0 st : ℝ) : List ℝ :=
  np_logspace (Real.logb 10 s0) (Real.logb 10 st) (numSteps s0 st) ++ [st]

/-! ### Concrete cycle environments used by the theorems below -/


/-- A steady-state cycle environment: reference at 100.0 MHz, instrument
centered at 100.0 MHz, span 250 Hz, rbw 20 Hz, wall time 1 s. -/
def envSteadyA : Env :=
  ⟨"beatnote_freq 1700000000 100.0", "100000000.0", "250.0", "20.0",
   "0.2", "100000012.5", "30.0", "20.0",
   "beatnote_freq 1700000000 100.0", "0.2", 1⟩

/-- Same steady-state cycle 0.1 s later (wall time 1.1 s). -/
def envSteadyB : Env :=
  ⟨"beatnote_freq 1700000000 100.0", "100000000.0", "250.0", "20.0",
   "0.2", "100000012.5", "30.0", "20.0",
   "beatnote_freq 1700000000 100.0", "0.2", 11 / 10⟩

/-- Reference read 100.04 MHz, instrument centered there, wall time 1.5 s:
a normal measured cycle when the baseline is 100.0 MHz. -/
def envDriftA : Env :=
  ⟨"beatnote_freq 1700000001 100.04", "100040000.0", "250.0", "20.0",
   "0.2", "100040000.0", "25.0", "20.0",
   "beatnote_freq 1700000001 100.04", "0.2", 3 / 2⟩

/-- The next poll: reference read 100.08 MHz, 0.04 MHz from the previous
poll's 100.04 MHz but 0.08 MHz from the pre-loop baseline 100.0 MHz. -/
def envDriftB : Env :=
  ⟨"beatnote_freq 1700000002 100.08", "100080000.0", "250.0", "20.0",
   "0.2", "100080000.0", "25.0", "20.0",
   "beatnote_freq 1700000002 100.08", "0.2", 2⟩

/-- A cycle whose reference feed is healthy (100.0 MHz, equal to the
baseline) but whose instrument reply to the center-frequency query is the
malformed text `12..5`: `float()` on it at line 219 raises `ValueError`. -/
def envBadReply : Env :=
  ⟨"beatnote_freq 1700000003 100.0", "12..5", "250.0", "20.0",
   "0.2", "100000012.5", "30.0", "20.0",
   "beatnote_freq 1700000003 100.0", "0.2", 3⟩

/-- The spec's own example situation: instrument centered at 101.0 MHz
while the reference counter reads 100.0 MHz (tolerance 0.05 MHz). -/
def envC5 : Env :=
  ⟨"beatnote_freq 1700000005 100.0", "101000000.0", "250.0", "20.0",
   "0.2", "101000000.0", "30.0", "20.0",
   "beatnote_freq 1700000005 100.0", "0.2", 4⟩

def envC9 : Env :=
  ⟨"", "", "", "", "", "", "", "", "beatnote_freq 1700000000 100.5", "0.5", 0⟩

def envC9w : Env :=
  ⟨"", "", "", "", "", "", "", "", "beatnote_freq 1700000001 101.25", "0.25", 0⟩

/-! ### Helper lemmas -/

theorem pubTimes_append (l1 l2 : List Event) :
    pubTimes (l1 ++ l2) = pubTimes l1 ++ pubTimes l2 :=
  List.filterMap_append l1 l2 pubTime?

theorem pubTimes_cons_write (c : String) (l : List Event) :
    pubTimes (Event.write c :: l) = pubTimes l := rfl

theorem pubTimes_cons_query (c : String) (l : List Event) :
    pubTimes (Event.queryEv c :: l) = pubTimes l := rfl

theorem pubTimes_cons_sleep (d : ℚ) (l : List Event) :
    pubTimes (Event.sleepEv d :: l) = pubTimes l := rfl

theorem pubTimes_cons_publish (r : ℚ) (p f : String) (t : ℚ) (l : List Event) :
    pubTimes (Event.publishEv r p f t :: l) = t :: pubTimes l := rfl

theorem pubTimes_nil : pubTimes [] = [] := rfl

theorem do_sweep_cont_noPub {s : String} {l : List Event}
    (h : do_sweep_cont s = Except.ok l) : pubTimes l = [] := by
  unfold do_sweep_cont wait_for_sweep at h
  split at h
  · simp [Except.map] at h
  · simp only [Except.map, Except.ok.injEq] at h
    subst h
    simp [pubTimes, pubTime?]

theorem coarse_center_noPub {e : Env} {l : List Event}
    (h : coarse_center_on_beatnote e = Except.ok l) : pubTimes l = [] := by
  unfold coarse_center_on_beatnote at h
  repeat' split at h
  all_goals simp only [Except.ok.injEq, reduceCtorEq] at h
  subst h
  rfl

theorem loopStep_pubTimes {last : ℚ} {st : LoopState} {e : Env}
    {oc : CycleOutcome} {st2 : LoopState} {evs : List Event}
    (h : loopStep last st e = Except.ok (oc, st2, evs)) :
    (pubTimes evs = [] ∧ st2 = st) ∨
    (pubTimes evs = [e.now] ∧ st.pub_last_time + pub_interval < e.now
      ∧ st2 = ⟨e.now⟩) := by
  unfold loopStep at h
  repeat' split at h
  all_goals simp only [Except.ok.injEq, Prod.mk.injEq, reduceCtorEq] at h
  all_goals obtain ⟨hoc, hst, hevs⟩ := h
  all_goals subst hst hevs
  · exact Or.inl ⟨rfl, rfl⟩
  · exact Or.inl ⟨by
      simp [pubTimes_cons_sleep, pubTimes_cons_query,
        coarse_center_noPub (by assumption)], rfl⟩
  · exact Or.inl ⟨rfl, rfl⟩
  · exact Or.inl ⟨rfl, rfl⟩
  · exact Or.inr ⟨by
      simp [pubTimes_append, pubTimes_cons_sleep, pubTimes_cons_query,
        pubTimes_cons_write, pubTimes_cons_publish, pubTimes_nil,
        get_peak_freq, get_3db_width, peak_freq_events, width_3db_events,
        do_sweep_cont_noPub (by assumption)], by assumption, rfl⟩
  · exact Or.inl ⟨by
      simp [pubTimes_append, pubTimes_cons_sleep, pubTimes_cons_query,
        pubTimes_cons_write, pubTimes_cons_publish, pubTimes_nil,
        get_peak_freq, get_3db_width, peak_freq_events, width_3db_events,
        do_sweep_cont_noPub (by assumption)], rfl⟩

theorem loopRun_pubTimes (last : ℚ) :
    ∀ (envs : List Env) (st : LoopState),
      List.Chain' (fun t1 t2 => t1 + pub_interval < t2)
        (pubTimes (loopRun last st envs).events)
      ∧ ∀ t ∈ pubTimes (loopRun last st envs).events,
          st.pub_last_time + pub_interval < t := by
  intro envs
  induction envs with
  | nil => intro st; simp [loopRun, pubTimes]
  | cons e es ih =>
    intro st
    cases hstep : loopStep last st e with
    | error er => simp [loopRun, hstep, pubTimes]
    | ok res =>
      obtain ⟨oc, st2, evs⟩ := res
      have hrec := ih st2
      have hrun : loopRun last st (e :: es) =
          ⟨oc :: (loopRun last st2 es).outcomes,
           evs ++ (loopRun last st2 es).events,
           (loopRun last st2 es).final, (loopRun last st2 es).err⟩ := by
        simp [loopRun, hstep]
      rw [hrun]
      rcases loopStep_pubTimes hstep with ⟨hnil, hst⟩ | ⟨hone, hlt, hst2⟩
      · subst hst
        constructor
        · simpa [pubTimes_append, hnil] using hrec.1
        · intro t ht
          rw [pubTimes_append, hnil] at ht
          exact hrec.2 t (by simpa using ht)
      · subst hst2
        have hpos : (0 : ℚ) < pub_interval := by norm_num [pub_interval]
        constructor
        · rw [pubTimes_append, hone]
          refine List.chain'_cons'.mpr ⟨?_, hrec.1⟩
          intro y hy
          exact hrec.2 y (List.mem_of_mem_head? hy)
        · intro t ht
          rw [pubTimes_append, hone] at ht
          rcases List.mem_cons.mp ht with h1 | h2
          · exact h1 ▸ hlt
          · have := hrec.2 t h2
            calc st.pub_last_time + pub_interval
                < e.now := hlt
              _ < e.now + pub_interval := by linarith
              _ < t := this

theorem exponent_ge {a b : ℝ} {n i : ℕ} (hba : b ≤ a) (hi : i < n) :
    b ≤ a + (i : ℝ) * ((b - a) / ((n : ℝ) - 1)) := by
  rcases n with _ | n1
  · exact absurd hi (Nat.not_lt_zero i)
  rcases n1 with _ | m
  · have hi0 : i = 0 := Nat.lt_one_iff.mp hi
    subst hi0
    simpa using hba
  · have hd : ((m + 2 : ℕ) : ℝ) - 1 = (m : ℝ) + 1 := by push_cast; ring
    have hdpos : (0 : ℝ) < ((m + 2 : ℕ) : ℝ) - 1 := by rw [hd]; positivity
    have hstep : (b - a) / (((m + 2 : ℕ) : ℝ) - 1) ≤ 0 :=
      div_nonpos_iff.mpr (Or.inr ⟨by linarith, hdpos.le⟩)
    have hile : (i : ℝ) ≤ ((m + 2 : ℕ) : ℝ) - 1 := by
      rw [hd]
      have : i ≤ m + 1 := Nat.lt_succ_iff.mp hi
      exact_mod_cast this
    have key : (((m + 2 : ℕ) : ℝ) - 1) * ((b - a) / (((m + 2 : ℕ) : ℝ) - 1))
        ≤ (i : ℝ) * ((b - a) / (((m + 2 : ℕ) : ℝ) - 1)) :=
      mul_le_mul_of_nonpos_right hile hstep
    rw [mul_div_cancel₀ _ (ne_of_gt hdpos)] at key
    linarith

theorem np_logspace_ge {a b : ℝ} {n : ℕ} (hba : b ≤ a) :
    ∀ x ∈ np_logspace a b n, (10 : ℝ) ^ b ≤ x := by
  intro x hx
  simp only [np_logspace, List.mem_map, List.mem_range] at hx
  obtain ⟨i, hi, rfl⟩ := hx
  exact (Real.rpow_le_rpow_left_iff (by norm_num)).mpr (exponent_ge hba hi)

theorem np_logspace_chain {a b : ℝ} (n : ℕ) (hba : b ≤ a) :
    List.Chain' (fun x y => y ≤ x) (np_logspace a b n) := by
  rw [np_logspace, List.chain'_map]
  cases n with
  | zero => simp
  | succ m =>
    rw [List.chain'_range_succ]
    intro k hk
    apply (Real.rpow_le_rpow_left_iff (by norm_num)).mpr
    have hd0 : (0 : ℝ) ≤ ((m + 1 : ℕ) : ℝ) - 1 := by push_cast; linarith
    have hstep : (b - a) / (((m + 1 : ℕ) : ℝ) - 1) ≤ 0 :=
      div_nonpos_iff.mpr (Or.inr ⟨by linarith, hd0⟩)
    have hk1 : (k : ℝ) ≤ ((k + 1 : ℕ) : ℝ) := by exact_mod_cast Nat.le_succ k
    have := mul_le_mul_of_nonpos_right hk1 hstep
    push_cast at this ⊢
    linarith

/-! ### Claim theorems -/

/-- C1 (code_bug evidence): the monitor's ramping check compares each
cycle's reference read to the value sampled once before the loop, never to
the immediately preceding poll.  With baseline 100.0 MHz and successive
reads 100.04 then 100.08 MHz (tolerance 0.05 MHz), the second cycle is
classified as ramping even though consecutive polls differ by only
0.04 MHz ≤ `bn_compare_tol` — the claim's consecutive-poll criterion says
it must not be. -/
theorem drift_check_uses_stale_baseline :
    (loopRun 100 initState [envDriftA, envDriftB]).outcomes =
      [CycleOutcome.measured, CycleOutcome.ramping]
    ∧ pyBn envDriftA.bn_msg = Except.ok (2501 / 25)
    ∧ pyBn envDriftB.bn_msg = Except.ok (2502 / 25)
    ∧ |(2501 : ℚ) / 25 - 2502 / 25| ≤ bn_compare_tol := by
  refine ⟨?_, ?_, ?_, ?_⟩
  · simp +decide [loopRun, loopStep, pyBn, get_beatnote_counter_freq, pySplit,
      pySplitAux, pyFloat, pyFloatChars, parseMantissa, parseExpPart, takeDigits,
      dropWs, digitsVal, pyStrip, coarse_center_on_beatnote, do_sweep_cont,
      wait_for_sweep, get_peak_freq, get_3db_width, peak_freq_events,
      width_3db_events, initState, pub_interval, sleep_time, zoomed_freq_span,
      zoomed_rbw, bn_compare_tol, zoom_tol, Except.map, envDriftA, envDriftB]
    norm_num [abs_eq_max_neg, max_def]
  · simp +decide [pyBn, get_beatnote_counter_freq, pySplit, pySplitAux,
      pyFloat, pyFloatChars, parseMantissa, parseExpPart, takeDigits, dropWs,
      digitsVal, envDriftA]
    norm_num
  · simp +decide [pyBn, get_beatnote_counter_freq, pySplit, pySplitAux,
      pyFloat, pyFloatChars, parseMantissa, parseExpPart, takeDigits, dropWs,
      digitsVal, envDriftB]
    norm_num
  · norm_num [bn_compare_tol, abs_eq_max_neg, max_def]

/-- C2: for every starting span `s0` and target span `st` with
`s0 > st > 0`, the span sequence commanded by `narrow_on_beatnote` is
nonempty, monotonically non-increasing, starts at a value at most `s0`,
and ends with exactly `st` (the forced final correction). -/
theorem narrow_spans_spec (s0 st : ℝ) (hst : 0 < st) (h : st < s0) :
    narrow_spans s0 st ≠ []
    ∧ List.Chain' (fun x y => y ≤ x) (narrow_spans s0 st)
    ∧ (∀ x ∈ (narrow_spans s0 st).head?, x ≤ s0)
    ∧ (narrow_spans s0 st).getLast? = some st := by
  have hs0 : 0 < s0 := hst.trans h
  have hba : Real.logb 10 st ≤ Real.logb 10 s0 :=
    (Real.logb_le_logb (by norm_num) hst hs0).mpr h.le
  have hstpow : (10 : ℝ) ^ Real.logb 10 st = st :=
    Real.rpow_logb (by norm_num) (by norm_num) hst
  have hs0pow : (10 : ℝ) ^ Real.logb 10 s0 = s0 :=
    Real.rpow_logb (by norm_num) (by norm_num) hs0
  refine ⟨?_, ?_, ?_, ?_⟩
  · simp [narrow_spans]
  · rw [narrow_spans]
    apply List.chain'_append.mpr
    refine ⟨np_logspace_chain _ hba, List.chain'_singleton _, ?_⟩
    intro x hx y hy
    simp only [List.head?_cons, Option.mem_def, Option.some.injEq] at hy
    subst hy
    obtain ⟨hne, hxl⟩ := List.mem_getLast?_eq_getLast hx
    have hmem : x ∈ np_logspace (Real.logb 10 s0) (Real.logb 10 st)
        (numSteps s0 st) := hxl ▸ List.getLast_mem hne
    have := np_logspace_ge hba x hmem
    rwa [hstpow] at this
  · intro x hx
    rw [narrow_spans] at hx
    cases hn : numSteps s0 st with
    | zero =>
      rw [hn] at hx
      simp [np_logspace] at hx
      subst hx
      exact h.le
    | succ m =>
      rw [hn] at hx
      rw [np_logspace, List.range_succ_eq_map] at hx
      simp only [List.map_cons, List.cons_append, List.head?_cons,
        Option.mem_def, Option.some.injEq] at hx
      subst hx
      rw [Nat.cast_zero, zero_mul, add_zero, hs0pow]
  · rw [narrow_spans]
    exact List.getLast?_concat _

theorem narrow_spans_spec_witness :
    (0 : ℝ) < 250 ∧ (250 : ℝ) < 5000000
    ∧ (narrow_spans 5000000 250 ≠ []
       ∧ List.Chain' (fun x y => y ≤ x) (narrow_spans 5000000 250)
       ∧ (∀ x ∈ (narrow_spans 5000000 250).head?, x ≤ 5000000)
       ∧ (narrow_spans 5000000 250).getLast? = some 250) :=
  ⟨by norm_num, by norm_num,
   narrow_spans_spec 5000000 250 (by norm_num) (by norm_num)⟩


/-- C3: over any run of the monitor loop, successive publisher calls are
always more than `pub_interval` apart (and the first comes more than
`pub_interval` after the initial `pub_last_time`); concretely, two
measurement cycles at wall times 1 s and 1.1 s with interval 0.4 s produce
exactly one publish — the second sample is skipped, not queued. -/
theorem publish_rate_limited :
    (∀ (last : ℚ) (st : LoopState) (envs : List Env),
        List.Chain' (fun t1 t2 => t1 + pub_interval < t2)
          (pubTimes (loopRun last st envs).events)
        ∧ ∀ t ∈ pubTimes (loopRun last st envs).events,
            st.pub_last_time + pub_interval < t)
    ∧ pubTimes (loopRun 100 initState [envSteadyA, envSteadyB]).events = [1] := by
  constructor
  · intro last st envs
    exact loopRun_pubTimes last envs st
  · simp +decide [loopRun, loopStep, pyBn, get_beatnote_counter_freq, pySplit,
      pySplitAux, pyFloat, pyFloatChars, parseMantissa, parseExpPart, takeDigits,
      dropWs, digitsVal, pyStrip, coarse_center_on_beatnote, do_sweep_cont,
      wait_for_sweep, get_peak_freq, get_3db_width, peak_freq_events,
      width_3db_events, initState, pub_interval, sleep_time, zoomed_freq_span,
      zoomed_rbw, bn_compare_tol, zoom_tol, pubTimes, pubTime?, Except.map,
      envSteadyA, envSteadyB]
    norm_num
    simp [List.filterMap_cons, pubTime?]

theorem publish_rate_limited_witness :
    List.Chain' (fun t1 t2 => t1 + pub_interval < t2)
      (pubTimes (loopRun 5 initState [envSteadyA]).events) :=
  (publish_rate_limited.1 5 initState [envSteadyA]).1

/-- C4 (counterexample): an instrument query returning a malformed
numeric reply — here the center-frequency query replying `12..5`, while
the reference feed itself is healthy — is not logged-and-skipped with the
cycle retried: the uncaught `ValueError` terminates the run at once, no
cycle outcome is recorded, and the following healthy cycle is never
reached. -/
theorem query_parse_error_kills_loop :
    pyBn envBadReply.bn_msg = Except.ok 100
    ∧ pyFloat (pyStrip envBadReply.cf_reply) = none
    ∧ loopRun 100 initState [envBadReply, envSteadyA] =
        ⟨[], [], initState, some PyErr.valueErr⟩ := by
  have hb : pyBn envBadReply.bn_msg = Except.ok 100 := by
    simp +decide [pyBn, get_beatnote_counter_freq, pySplit, pySplitAux, pyFloat,
      pyFloatChars, parseMantissa, parseExpPart, takeDigits, dropWs, digitsVal,
      envBadReply]
    try norm_num
  have hc : pyFloat (pyStrip envBadReply.cf_reply) = none := by
    simp +decide [pyFloat, pyFloatChars, parseMantissa, parseExpPart,
      takeDigits, dropWs, digitsVal, pyStrip, envBadReply]
  have hnr : ¬ (|(100 : ℚ) - 100| > bn_compare_tol) := by
    norm_num [bn_compare_tol]
  refine ⟨hb, hc, ?_⟩
  norm_num [loopRun, loopStep, hb, hc, initState, bn_compare_tol]

/-- C4 (amended): a malformed numeric reply to an instrument query is NOT
contained to its cycle: the `ValueError` from `float()` propagates out of
`start_loop` and terminates the monitor loop immediately, with the state
as it was before the cycle, no cycle outcome recorded and no later poll
cycle executed.  The conjuncts cover every query reply the loop body
parses: the center-frequency reply (line 219), the span and rbw replies of
`check_zoomed_in` (lines 189, 192), the sweep-time reply of
`do_sweep_cont` (line 109) and the measurement rbw reply (line 240). -/
theorem query_parse_error_crashes_loop (last bn cfHz sp rv t : ℚ)
    (st : LoopState) (e : Env) (es : List Env)
    (hb : pyBn e.bn_msg = Except.ok bn)
    (hnr : ¬ (|last - bn| > bn_compare_tol)) :
    (pyFloat (pyStrip e.cf_reply) = none →
       loopRun last st (e :: es) = ⟨[], [], st, some PyErr.valueErr⟩)
    ∧ (pyFloat (pyStrip e.cf_reply) = some cfHz →
       ¬ (|cfHz / 1000 / 1000 - bn| > bn_compare_tol) →
       pyFloat (pyStrip e.span_reply) = none →
       loopRun last st (e :: es) = ⟨[], [], st, some PyErr.valueErr⟩)
    ∧ (pyFloat (pyStrip e.cf_reply) = some cfHz →
       ¬ (|cfHz / 1000 / 1000 - bn| > bn_compare_tol) →
       pyFloat (pyStrip e.span_reply) = some sp →
       ¬ (|sp - zoomed_freq_span| > zoom_tol) →
       pyFloat (pyStrip e.rbw_reply) = none →
       loopRun last st (e :: es) = ⟨[], [], st, some PyErr.valueErr⟩)
    ∧ (pyFloat (pyStrip e.cf_reply) = some cfHz →
       ¬ (|cfHz / 1000 / 1000 - bn| > bn_compare_tol) →
       pyFloat (pyStrip e.span_reply) = some sp →
       ¬ (|sp - zoomed_freq_span| > zoom_tol) →
       pyFloat (pyStrip e.rbw_reply) = some rv →
       ¬ (|rv - zoomed_rbw| > zoom_tol) →
       pyFloat (pyStrip e.sweep_reply) = none →
       loopRun last st (e :: es) = ⟨[], [], st, some PyErr.valueErr⟩)
    ∧ (pyFloat (pyStrip e.cf_reply) = some cfHz →
       ¬ (|cfHz / 1000 / 1000 - bn| > bn_compare_tol) →
       pyFloat (pyStrip e.span_reply) = some sp →
       ¬ (|sp - zoomed_freq_span| > zoom_tol) →
       pyFloat (pyStrip e.rbw_reply) = some rv →
       ¬ (|rv - zoomed_rbw| > zoom_tol) →
       pyFloat (pyStrip e.sweep_reply) = some t →
       pyFloat (pyStrip e.rbw2_reply) = none →
       loopRun last st (e :: es) = ⟨[], [], st, some PyErr.valueErr⟩) := by
  refine ⟨?_, ?_, ?_, ?_, ?_⟩
  · intro hc
    simp [loopRun, loopStep, hb, hnr, hc]
  · intro hc hcent hsp
    simp [loopRun, loopStep, hb, hnr, hc, hcent, hsp]
  · intro hc hcent hsp hspok hrv
    simp [loopRun, loopStep, hb, hnr, hc, hcent, hsp, hspok, hrv]
  · intro hc hcent hsp hspok hrv hrvok hsw
    simp [loopRun, loopStep, hb, hnr, hc, hcent, hsp, hspok, hrv, hrvok,
      do_sweep_cont, wait_for_sweep, hsw, Except.map]
  · intro hc hcent hsp hspok hrv hrvok hsw hr2
    simp [loopRun, loopStep, hb, hnr, hc, hcent, hsp, hspok, hrv, hrvok,
      do_sweep_cont, wait_for_sweep, hsw, hr2, Except.map]

theorem query_parse_error_crashes_loop_witness :
    pyBn envBadReply.bn_msg = Except.ok 100
    ∧ ¬ (|(100 : ℚ) - 100| > bn_compare_tol)
    ∧ pyFloat (pyStrip envBadReply.cf_reply) = none
    ∧ loopRun 100 initState [envBadReply] =
        ⟨[], [], initState, some PyErr.valueErr⟩ := by
  have hb : pyBn envBadReply.bn_msg = Except.ok 100 := by
    simp +decide [pyBn, get_beatnote_counter_freq, pySplit, pySplitAux, pyFloat,
      pyFloatChars, parseMantissa, parseExpPart, takeDigits, dropWs, digitsVal,
      envBadReply]
    try norm_num
  have hnr : ¬ (|(100 : ℚ) - 100| > bn_compare_tol) := by
    norm_num [bn_compare_tol]
  have hc : pyFloat (pyStrip envBadReply.cf_reply) = none := by
    simp +decide [pyFloat, pyFloatChars, parseMantissa, parseExpPart,
      takeDigits, dropWs, digitsVal, pyStrip, envBadReply]
  exact ⟨hb, hnr, hc,
    (query_parse_error_crashes_loop 100 100 0 0 0 0 initState envBadReply []
      hb hnr).1 hc⟩

/-- C5: in a cycle that is not skipped by the drift check, if the queried
center frequency (converted Hz to MHz) differs from the reference by more
than `bn_compare_tol`, the loop performs coarse re-acquisition — center on
the (re-read) reference value with 5 MHz span and 10 kHz rbw — and ends
the cycle without any measurement or publish. -/
theorem off_center_triggers_coarse (last bn cfHz : ℚ) (st : LoopState) (e : Env)
    (tok : String) (t : ℚ)
    (hb : pyBn e.bn_msg = Except.ok bn)
    (hnr : ¬ (|last - bn| > bn_compare_tol))
    (hc : pyFloat (pyStrip e.cf_reply) = some cfHz)
    (hfar : |cfHz / 1000 / 1000 - bn| > bn_compare_tol)
    (htok : get_beatnote_counter_freq e.bn_msg2 = some tok)
    (ht : pyFloat (pyStrip e.sweep2_reply) = some t) :
    loopStep last st e =
      Except.ok (CycleOutcome.recenter, st,
        [Event.sleepEv sleep_time,
         Event.queryEv ":SENSe:FREQuency:CENTer?",
         Event.write (":SENSe:FREQuency:CENTer " ++ tok ++ "MHz"),
         Event.write "SENSe:FREQuency:SPAN 5MHz",
         Event.write "SENSe:BANDwidth:RESolution 10kHz",
         Event.queryEv ":SENSe:SWEep:TIME?",
         Event.sleepEv t]) := by
  simp [loopStep, hb, hnr, hc, hfar, coarse_center_on_beatnote, htok, ht]

theorem off_center_triggers_coarse_witness :
    pyFloat (pyStrip envC5.cf_reply) = some 101000000
    ∧ |(101000000 : ℚ) / 1000 / 1000 - 100| > bn_compare_tol
    ∧ loopStep 100 initState envC5 =
        Except.ok (CycleOutcome.recenter, initState,
          [Event.sleepEv sleep_time,
           Event.queryEv ":SENSe:FREQuency:CENTer?",
           Event.write (":SENSe:FREQuency:CENTer " ++ "100.0" ++ "MHz"),
           Event.write "SENSe:FREQuency:SPAN 5MHz",
           Event.write "SENSe:BANDwidth:RESolution 10kHz",
           Event.queryEv ":SENSe:SWEep:TIME?",
           Event.sleepEv (1 / 5)]) := by
  have hb : pyBn envC5.bn_msg = Except.ok 100 := by
    simp +decide [pyBn, get_beatnote_counter_freq, pySplit, pySplitAux, pyFloat,
      pyFloatChars, parseMantissa, parseExpPart, takeDigits, dropWs, digitsVal,
      envC5]
    try norm_num
  have hnr : ¬ (|(100 : ℚ) - 100| > bn_compare_tol) := by
    norm_num [bn_compare_tol]
  have hc : pyFloat (pyStrip envC5.cf_reply) = some 101000000 := by
    simp +decide [pyFloat, pyFloatChars, parseMantissa, parseExpPart,
      takeDigits, dropWs, digitsVal, pyStrip, envC5]
    try norm_num
  have hfar : |(101000000 : ℚ) / 1000 / 1000 - 100| > bn_compare_tol := by
    norm_num [bn_compare_tol, abs_eq_max_neg, max_def]
  have htok : get_beatnote_counter_freq envC5.bn_msg2 = some "100.0" := by decide
  have ht : pyFloat (pyStrip envC5.sweep2_reply) = some (1 / 5) := by
    simp +decide [pyFloat, pyFloatChars, parseMantissa, parseExpPart,
      takeDigits, dropWs, digitsVal, pyStrip, envC5]
    try norm_num
  exact ⟨hc, hfar,
    off_center_triggers_coarse 100 100 101000000 initState envC5 "100.0" (1 / 5)
      hb hnr hc hfar htok ht⟩

/-- C6: `get_peak_freq` issues exactly marker-enable, marker-to-trace,
peak-locate and the marker-frequency query, in that order, and returns the
(stripped) queried marker position; `wait_for_sweep` sleeps at least
`T * 1.01` seconds when the instrument reports sweep time `T`. -/
theorem peak_seq_and_sweep_margin (xReply sweepReply : String) (T : ℚ)
    (h : pyFloat (pyStrip sweepReply) = some T) :
    get_peak_freq xReply =
      ([Event.write ":CALCulate1:MARKer1:STATe ON",
        Event.write ":CALCulate1:MARKer1:TRACe 1",
        Event.write ":CALCulate1:MARKer1:MAXimum:PEAK",
        Event.queryEv ":CALCulate1:MARKer1:X?"], pyStrip xReply)
    ∧ ∃ d, wait_for_sweep sweepReply =
        Except.ok [Event.queryEv ":SENSe:SWEep:TIME?", Event.sleepEv d]
        ∧ T * (101 / 100) ≤ d := by
  refine ⟨rfl, ⟨T * (101 / 100), ?_, le_refl _⟩⟩
  simp [wait_for_sweep, h]

theorem peak_seq_and_sweep_margin_witness :
    pyFloat (pyStrip "0.5") = some (1 / 2)
    ∧ (get_peak_freq "100000000.0" =
        ([Event.write ":CALCulate1:MARKer1:STATe ON",
          Event.write ":CALCulate1:MARKer1:TRACe 1",
          Event.write ":CALCulate1:MARKer1:MAXimum:PEAK",
          Event.queryEv ":CALCulate1:MARKer1:X?"], pyStrip "100000000.0")
       ∧ ∃ d, wait_for_sweep "0.5" =
          Except.ok [Event.queryEv ":SENSe:SWEep:TIME?", Event.sleepEv d]
          ∧ (1 : ℚ) / 2 * (101 / 100) ≤ d) := by
  have h : pyFloat (pyStrip "0.5") = some (1 / 2) := by
    simp +decide [pyFloat, pyFloatChars, parseMantissa, takeDigits, dropWs,
      digitsVal, pyStrip]
    norm_num
  exact ⟨h, peak_seq_and_sweep_margin "100000000.0" "0.5" (1 / 2) h⟩

/-- C7 (counterexample): `get_rbw` on a transport replying the non-numeric
text ` 12abc ` succeeds and returns the raw stripped reply string — it
neither parses the reply into a number nor fails on the malformed text. -/
theorem getter_returns_raw_reply :
    get_rbw (fun _ => " 12abc ") = "12abc" ∧ pyFloat "12abc" = none := by
  constructor
  · rfl
  · decide

/-- C7 (amended): every getter of the instrument facade returns the
whitespace-stripped raw reply string of its query unchanged; no numeric
parsing (and hence no parse failure) happens in the facade — `float()`
conversion is done by the callers in the monitor. -/
theorem facade_getters_return_stripped_reply (transport : String → String) :
    get_rbw transport = pyStrip (transport "SENSe:BANDwidth:RESolution?")
    ∧ get_freq_span transport = pyStrip (transport "SENSe:FREQuency:SPAN?")
    ∧ get_center_freq transport = pyStrip (transport ":SENSe:FREQuency:CENTer?")
    ∧ get_sweep_time transport = pyStrip (transport ":SENSe:SWEep:TIME?")
    ∧ get_marker_freq transport = pyStrip (transport ":CALCulate1:MARKer1:X?")
    ∧ get_marker_ndbdown_fspacing transport
        = pyStrip (transport ":CALCulate1:MARKer1:FUNCtion:NDBDown:RESult?") :=
  ⟨rfl, rfl, rfl, rfl, rfl, rfl⟩

/-- C8 (code_bug evidence): the teardown calls
`self.sa.close_connenction()` but the instrument class defines
`close_connection`, so attribute lookup raises and none of the three
resources (instrument transport, publisher, reference feed) is
released. -/
theorem del_raises_attribute_error :
    "close_connection" ∈ saMethodNames
    ∧ "close_connenction" ∉ saMethodNames
    ∧ del_body = Except.error PyErr.attributeErr := by
  refine ⟨by decide, by decide, ?_⟩
  simp +decide [del_body, attrCall, Except.bind]

/-- C9 (counterexample): with reported sweep time 0.5 s, coarse
acquisition sleeps exactly 0.5 s — not strictly longer than the reported
sweep time, i.e. no safety margin is added (contrast `wait_for_sweep`'s
factor 1.01). -/
theorem coarse_sleep_lacks_margin :
    coarse_center_on_beatnote envC9 =
      Except.ok [Event.write (":SENSe:FREQuency:CENTer " ++ "100.5" ++ "MHz"),
                 Event.write "SENSe:FREQuency:SPAN 5MHz",
                 Event.write "SENSe:BANDwidth:RESolution 10kHz",
                 Event.queryEv ":SENSe:SWEep:TIME?",
                 Event.sleepEv (1 / 2)]
    ∧ ¬ ((1 : ℚ) / 2 > 1 / 2) := by
  constructor
  · have htok : get_beatnote_counter_freq envC9.bn_msg2 = some "100.5" := by decide
    have ht : pyFloat (pyStrip envC9.sweep2_reply) = some (1 / 2) := by
      simp +decide [pyFloat, pyFloatChars, parseMantissa, takeDigits, dropWs,
        digitsVal, pyStrip, envC9]
      norm_num
    simp [coarse_center_on_beatnote, htok, ht]
  · norm_num

/-- C9 (amended): coarse acquisition commands center = reference string +
"MHz", span 5 MHz, rbw 10 kHz, queries the sweep time and sleeps exactly
the reported duration, with no added margin. -/
theorem coarse_center_command_trace (e : Env) (tok : String) (t : ℚ)
    (htok : get_beatnote_counter_freq e.bn_msg2 = some tok)
    (ht : pyFloat (pyStrip e.sweep2_reply) = some t) :
    coarse_center_on_beatnote e =
      Except.ok [Event.write (":SENSe:FREQuency:CENTer " ++ tok ++ "MHz"),
                 Event.write "SENSe:FREQuency:SPAN 5MHz",
                 Event.write "SENSe:BANDwidth:RESolution 10kHz",
                 Event.queryEv ":SENSe:SWEep:TIME?",
                 Event.sleepEv t] := by
  simp [coarse_center_on_beatnote, htok, ht]

theorem coarse_center_command_trace_witness :
    get_beatnote_counter_freq envC9w.bn_msg2 = some "101.25"
    ∧ pyFloat (pyStrip envC9w.sweep2_reply) = some (1 / 4)
    ∧ coarse_center_on_beatnote envC9w =
        Except.ok [Event.write (":SENSe:FREQuency:CENTer " ++ "101.25" ++ "MHz"),
                   Event.write "SENSe:FREQuency:SPAN 5MHz",
                   Event.write "SENSe:BANDwidth:RESolution 10kHz",
                   Event.queryEv ":SENSe:SWEep:TIME?",
                   Event.sleepEv (1 / 4)] := by
  have htok : get_beatnote_counter_freq envC9w.bn_msg2 = some "101.25" := by decide
  have ht : pyFloat (pyStrip envC9w.sweep2_reply) = some (1 / 4) := by
    simp +decide [pyFloat, pyFloatChars, parseMantissa, takeDigits, dropWs,
      digitsVal, pyStrip, envC9w]
    norm_num
  exact ⟨htok, ht, coarse_center_command_trace envC9w "101.25" (1 / 4) htok ht⟩

/-- C10: `pub_last_time` is initialised to 0 at construction, so the first
measured cycle publishes immediately: whenever the wall clock exceeds
`pub_interval` (0.4 s — always true for epoch timestamps), the first
steady-state cycle emits its sample and stamps `pub_last_time`. -/
theorem first_cycle_publishes (last bn cfHz sp rv t rbwVal : ℚ) (e : Env)
    (hb : pyBn e.bn_msg = Except.ok bn)
    (hnr : ¬ (|last - bn| > bn_compare_tol))
    (hc : pyFloat (pyStrip e.cf_reply) = some cfHz)
    (hcent : ¬ (|cfHz / 1000 / 1000 - bn| > bn_compare_tol))
    (hsp : pyFloat (pyStrip e.span_reply) = some sp)
    (hspok : ¬ (|sp - zoomed_freq_span| > zoom_tol))
    (hrv : pyFloat (pyStrip e.rbw_reply) = some rv)
    (hrvok : ¬ (|rv - zoomed_rbw| > zoom_tol))
    (hsw : pyFloat (pyStrip e.sweep_reply) = some t)
    (hr2 : pyFloat (pyStrip e.rbw2_reply) = some rbwVal)
    (hnow : pub_interval < e.now) :
    initState.pub_last_time = 0
    ∧ ∃ evs, loopStep last initState e =
        Except.ok (CycleOutcome.measured, ⟨e.now⟩, evs)
      ∧ pubTimes evs = [e.now] := by
  refine ⟨rfl, ?_⟩
  have hguard : initState.pub_last_time + pub_interval < e.now := by
    simpa [initState] using hnow
  refine ⟨([Event.sleepEv sleep_time,
            Event.queryEv ":SENSe:FREQuency:CENTer?",
            Event.queryEv "SENSe:FREQuency:SPAN?",
            Event.queryEv "SENSe:BANDwidth:RESolution?"] ++
           [Event.write ":INITiate1:IMMediate",
            Event.queryEv ":SENSe:SWEep:TIME?",
            Event.sleepEv (t * (101 / 100))] ++
           (get_peak_freq e.peak_reply).1 ++ (get_3db_width e.width_reply).1 ++
           [Event.queryEv "SENSe:BANDwidth:RESolution?",
            Event.write (":SENSe:FREQuency:CENTer " ++ (get_peak_freq e.peak_reply).2)]) ++
          [Event.publishEv rbwVal (get_peak_freq e.peak_reply).2
            (get_3db_width e.width_reply).2 e.now], ?_, ?_⟩
  · simp [loopStep, hb, hnr, hc, hcent, hsp, hspok, hrv, hrvok, hr2,
      do_sweep_cont, wait_for_sweep, hsw, Except.map, if_pos hguard]
  · simp [pubTimes, pubTime?, List.filterMap_append, get_peak_freq,
      get_3db_width, peak_freq_events, width_3db_events]

theorem first_cycle_publishes_witness :
    pub_interval < envSteadyA.now
    ∧ (initState.pub_last_time = 0
       ∧ ∃ evs, loopStep 100 initState envSteadyA =
           Except.ok (CycleOutcome.measured, ⟨envSteadyA.now⟩, evs)
         ∧ pubTimes evs = [envSteadyA.now]) := by
  have hb : pyBn envSteadyA.bn_msg = Except.ok 100 := by
    simp +decide [pyBn, get_beatnote_counter_freq, pySplit, pySplitAux, pyFloat,
      pyFloatChars, parseMantissa, parseExpPart, takeDigits, dropWs, digitsVal,
      envSteadyA]
    try norm_num
  have hnr : ¬ (|(100 : ℚ) - 100| > bn_compare_tol) := by
    norm_num [bn_compare_tol]
  have hc : pyFloat (pyStrip envSteadyA.cf_reply) = some 100000000 := by
    simp +decide [pyFloat, pyFloatChars, parseMantissa, parseExpPart,
      takeDigits, dropWs, digitsVal, pyStrip, envSteadyA]
    try norm_num
  have hcent : ¬ (|(100000000 : ℚ) / 1000 / 1000 - 100| > bn_compare_tol) := by
    norm_num [bn_compare_tol]
  have hsp : pyFloat (pyStrip envSteadyA.span_reply) = some 250 := by
    simp +decide [pyFloat, pyFloatChars, parseMantissa, parseExpPart,
      takeDigits, dropWs, digitsVal, pyStrip, envSteadyA]
    try norm_num
  have hspok : ¬ (|(250 : ℚ) - zoomed_freq_span| > zoom_tol) := by
    norm_num [zoomed_freq_span, zoom_tol]
  have hrv : pyFloat (pyStrip envSteadyA.rbw_reply) = some 20 := by
    simp +decide [pyFloat, pyFloatChars, parseMantissa, parseExpPart,
      takeDigits, dropWs, digitsVal, pyStrip, envSteadyA]
    try norm_num
  have hrvok : ¬ (|(20 : ℚ) - zoomed_rbw| > zoom_tol) := by
    norm_num [zoomed_rbw, zoom_tol]
  have hsw : pyFloat (pyStrip envSteadyA.sweep_reply) = some (1 / 5) := by
    simp +decide [pyFloat, pyFloatChars, parseMantissa, parseExpPart,
      takeDigits, dropWs, digitsVal, pyStrip, envSteadyA]
    try norm_num
  have hr2 : pyFloat (pyStrip envSteadyA.rbw2_reply) = some 20 := by
    simp +decide [pyFloat, pyFloatChars, parseMantissa, parseExpPart,
      takeDigits, dropWs, digitsVal, pyStrip, envSteadyA]
    try norm_num
  have hnow : pub_interval < envSteadyA.now := by
    simp [envSteadyA]
    norm_num [pub_interval]
  exact ⟨hnow,
    first_cycle_publishes 100 100 100000000 250 20 (1 / 5) 20 envSteadyA
      hb hnr hc hcent hsp hspok hrv hrvok hsw hr2 hnow⟩
